import Mathlib

/-!
Shallow embedding of the Enter L2 Python SDK client
(`src/python/enterl2/client.py`, class `EnterL2Client`).

The client is a thin coordination layer over external collaborators (the
provider facade, the wallet manager and the four domain services).  We model
it as a state machine:

* `ClientState` holds the fields the client mutates: the bound account
  (`_account`), the account the provider facade was last given
  (`provider.set_account`), and the event-callback registry
  (`_event_callbacks`, a Python `dict` modelled as an insertion-ordered
  association list).
* Every outward call to a collaborator is recorded in a trace of `ExtCall`
  values; the collaborator's behaviour is an oracle
  `ExtCall → Except Err String` supplied as a parameter, and each operation
  returns `(result, trace, new state)`.
* Python exceptions are modelled with `Except`; the only exception class the
  client itself constructs is `EnterL2Error` (the package also defines
  `TransactionError` and `NetworkError`, which a collaborator may raise
  through the oracle).
* Callbacks are opaque Python objects compared by identity; we model a
  callback as a `Nat` token and its behaviour when invoked on a payload as a
  function `Cb → String → Except String Unit` (raising = `Except.error`).
* Decimal amounts are never computed with, only passed through, so they are
  modelled as `Int`.
-/

namespace EnterL2

/-- Configuration record (`EnterL2Config`); bound at construction, never
mutated, and not consulted by any of the client methods modelled here. -/
structure EnterL2Config where
  rpcUrl : String
  chainId : Nat
deriving Repr, DecidableEq

/-- The identity produced by the external key parser
(`eth_account.Account.from_key`); only its derived address is observable. -/
structure LocalAccount where
  addr : String
deriving Repr, DecidableEq

/-- A callback object, identified by identity (Python compares list entries
with equality, which for function objects is identity). -/
abbrev Cb := Nat

/-- The exception classes of the package that can reach the client's callers:
the client itself only ever constructs `enterL2Error`; `transactionError` and
`networkError` exist in the package and may be raised by collaborators. -/
inductive Err where
  | enterL2Error (msg : String)
  | transactionError (msg : String)
  | networkError (msg : String)
deriving Repr, DecidableEq

/-- The Python class name of an exception value. -/
def Err.className : Err → String
  | .enterL2Error _ => "EnterL2Error"
  | .transactionError _ => "TransactionError"
  | .networkError _ => "NetworkError"

/-- Wallet kinds accepted by the wallet manager (`WalletType`). -/
inductive WalletType where
  | consumer
  | merchant
deriving Repr, DecidableEq

/-- Options dict built by `create_merchant_wallet`. -/
structure MerchantOptions where
  whitelist_enabled : Bool
  daily_limit : Option Int
deriving Repr, DecidableEq

/-- The request dict built by `send_payment`. -/
structure PaymentRequest where
  to' : String
  amount : Int
  token_address : Option String
  description : Option String
deriving Repr, DecidableEq

/-- One outward call from the client to a collaborator, with its arguments
exactly as the client passes them. -/
inductive ExtCall where
  | providerSetAccount (account : Option LocalAccount)
  | providerGetNetworkInfo
  | providerGetBalance (addr : Option String) (token_address : Option String)
  | providerGetTransaction (tx_hash : String)
  | providerWaitForTransaction (tx_hash : String) (confirmations : Int) (timeout : Int)
  | providerClose
  | walletCreateWallet (kind : WalletType) (options : Option MerchantOptions)
  | paymentSendPayment (request : PaymentRequest)
  | bridgeDeposit (token_address : String) (amount : Int) (recipient : Option String)
  | bridgeWithdraw (token_address : String) (amount : Int) (recipient : Option String)
  | namingRegisterName (name : String) (resolver : Option String)
  | stakingStake (amount : Int) (lock_period : Int)
  | stakingUnstake (amount : Int)
  | stakingClaimRewards
deriving Repr, DecidableEq

/-- Behaviour of the external collaborators: the value (or exception) each
delegated call comes back with.  Results are opaque to the client, modelled
as strings. -/
abbrev Oracle := ExtCall → Except Err String

/-- Lookup in a Python dict modelled as an insertion-ordered association
list: the first binding of the key. -/
def dictFind (d : List (String × List Cb)) (k : String) : Option (List Cb) :=
  match d with
  | [] => none
  | (k', v) :: rest => if k' = k then some v else dictFind rest k

/-- Assignment `d[k] = v` on a Python dict: updates the existing binding in
place, or appends a new binding at the end. -/
def dictSet (d : List (String × List Cb)) (k : String) (v : List Cb) :
    List (String × List Cb) :=
  match d with
  | [] => [(k, v)]
  | (k', v') :: rest => if k' = k then (k', v) :: rest else (k', v') :: dictSet rest k v

/-- Python `list.remove`: removes the first occurrence only (the
`ValueError` raised when the element is absent is caught by `off`, leaving
the list unchanged, so the absent case returns the list as is). -/
def removeFirst (c : Cb) : List Cb → List Cb
  | [] => []
  | c' :: rest => if c' = c then rest else c' :: removeFirst c rest

/-- The mutable fields of an `EnterL2Client` instance. -/
structure ClientState where
  config : EnterL2Config
  account : Option LocalAccount
  providerAccount : Option LocalAccount
  eventCallbacks : List (String × List Cb)
deriving Repr, DecidableEq

/-- Constructor `EnterL2Client.__init__`: no account bound, empty event
registry. -/
def initClient (config : EnterL2Config) : ClientState :=
  { config := config
    account := none
    providerAccount := none
    eventCallbacks := [] }

/-- Property `is_connected`: the client has a bound account. -/
def is_connected (s : ClientState) : Bool :=
  s.account.isSome

/-- Property `address`: the bound account's address, or `None`. -/
def address (s : ClientState) : Option String :=
  s.account.map LocalAccount.addr

/-- The Python `str()` of an exception value: its message. -/
def Err.msg : Err → String
  | .enterL2Error m => m
  | .transactionError m => m
  | .networkError m => m

/-- Method `connect(private_key)`.  The try block covers two statements: the
assignment of `Account.from_key(private_key)` to `_account` (the external
parser is the parameter `fromKey`) and the call
`provider.set_account(_account)` (fallible, through the oracle); an
exception from either is wrapped in `EnterL2Error("Failed to connect: ...")`.
When the parser fails nothing has changed yet; when the parser succeeds but
`set_account` raises, `_account` is already bound to the client and stays
so. -/
def connect (fromKey : String → Except String LocalAccount) (oracle : Oracle)
    (s : ClientState) (private_key : String) :
    Except Err Unit × List ExtCall × ClientState :=
  match fromKey private_key with
  | .error e =>
      (.error (.enterL2Error ("Failed to connect: " ++ e)), [], s)
  | .ok acct =>
      match oracle (.providerSetAccount (some acct)) with
      | .ok _ =>
          (.ok (), [.providerSetAccount (some acct)],
            { s with account := some acct, providerAccount := some acct })
      | .error e =>
          (.error (.enterL2Error ("Failed to connect: " ++ e.msg)),
            [.providerSetAccount (some acct)],
            { s with account := some acct })

/-- Method `disconnect()`: clears the account and tells the provider. -/
def disconnect (s : ClientState) : List ExtCall × ClientState :=
  ([.providerSetAccount none],
    { s with account := none, providerAccount := none })

/-- Method `get_network_info()`: unguarded delegation to the provider. -/
def get_network_info (oracle : Oracle) (s : ClientState) :
    Except Err String × List ExtCall × ClientState :=
  (oracle .providerGetNetworkInfo, [.providerGetNetworkInfo], s)

/-- Method `get_balance(token_address)`: guarded, then delegates with the
current address. -/
def get_balance (oracle : Oracle) (s : ClientState) (token_address : Option String) :
    Except Err String × List ExtCall × ClientState :=
  if !is_connected s then
    (.error (.enterL2Error "Client not connected"), [], s)
  else
    (oracle (.providerGetBalance (address s) token_address),
      [.providerGetBalance (address s) token_address], s)

/-- Method `get_transaction(tx_hash)`: unguarded delegation. -/
def get_transaction (oracle : Oracle) (s : ClientState) (tx_hash : String) :
    Except Err String × List ExtCall × ClientState :=
  (oracle (.providerGetTransaction tx_hash), [.providerGetTransaction tx_hash], s)

/-- Method `wait_for_transaction(tx_hash, confirmations, timeout)`:
unguarded delegation. -/
def wait_for_transaction (oracle : Oracle) (s : ClientState) (tx_hash : String)
    (confirmations : Int) (timeout : Int) :
    Except Err String × List ExtCall × ClientState :=
  (oracle (.providerWaitForTransaction tx_hash confirmations timeout),
    [.providerWaitForTransaction tx_hash confirmations timeout], s)

/-- Method `create_consumer_wallet()`: guarded, then delegates to the wallet
manager. -/
def create_consumer_wallet (oracle : Oracle) (s : ClientState) :
    Except Err String × List ExtCall × ClientState :=
  if !is_connected s then
    (.error (.enterL2Error "Client not connected"), [], s)
  else
    (oracle (.walletCreateWallet .consumer none),
      [.walletCreateWallet .consumer none], s)

/-- Method `create_merchant_wallet(whitelist_enabled, daily_limit)`:
guarded, builds the options dict, then delegates. -/
def create_merchant_wallet (oracle : Oracle) (s : ClientState)
    (whitelist_enabled : Bool) (daily_limit : Option Int) :
    Except Err String × List ExtCall × ClientState :=
  if !is_connected s then
    (.error (.enterL2Error "Client not connected"), [], s)
  else
    let options : MerchantOptions :=
      { whitelist_enabled := whitelist_enabled, daily_limit := daily_limit }
    (oracle (.walletCreateWallet .merchant (some options)),
      [.walletCreateWallet .merchant (some options)], s)

/-- Method `send_payment(to, amount, token_address, description)`: guarded,
builds the request dict, then delegates to the payment service. -/
def send_payment (oracle : Oracle) (s : ClientState) (to' : String) (amount : Int)
    (token_address : Option String) (description : Option String) :
    Except Err String × List ExtCall × ClientState :=
  if !is_connected s then
    (.error (.enterL2Error "Client not connected"), [], s)
  else
    let request : PaymentRequest :=
      { to' := to', amount := amount, token_address := token_address,
        description := description }
    (oracle (.paymentSendPayment request), [.paymentSendPayment request], s)

/-- Python `x or y` on an optional string: `None` and the empty string are
falsy and select `y`. -/
def pyOrOpt (x y : Option String) : Option String :=
  match x with
  | none => y
  | some str => if str = "" then y else some str

/-- Method `deposit(token_address, amount, l2_recipient)`: guarded, defaults
the recipient with `l2_recipient or self.address`, then delegates to the
bridge service. -/
def deposit (oracle : Oracle) (s : ClientState) (token_address : String)
    (amount : Int) (l2_recipient : Option String) :
    Except Err String × List ExtCall × ClientState :=
  if !is_connected s then
    (.error (.enterL2Error "Client not connected"), [], s)
  else
    let recipient := pyOrOpt l2_recipient (address s)
    (oracle (.bridgeDeposit token_address amount recipient),
      [.bridgeDeposit token_address amount recipient], s)

/-- Method `withdraw(token_address, amount, l1_recipient)`: guarded,
defaults the recipient with `l1_recipient or self.address`, then delegates
to the bridge service. -/
def withdraw (oracle : Oracle) (s : ClientState) (token_address : String)
    (amount : Int) (l1_recipient : Option String) :
    Except Err String × List ExtCall × ClientState :=
  if !is_connected s then
    (.error (.enterL2Error "Client not connected"), [], s)
  else
    let recipient := pyOrOpt l1_recipient (address s)
    (oracle (.bridgeWithdraw token_address amount recipient),
      [.bridgeWithdraw token_address amount recipient], s)

/-- Method `register_name(name, resolver)`: guarded delegation to the naming
service. -/
def register_name (oracle : Oracle) (s : ClientState) (name : String)
    (resolver : Option String) :
    Except Err String × List ExtCall × ClientState :=
  if !is_connected s then
    (.error (.enterL2Error "Client not connected"), [], s)
  else
    (oracle (.namingRegisterName name resolver),
      [.namingRegisterName name resolver], s)

/-- Method `stake(amount, lock_period)`: guarded delegation to the staking
service. -/
def stake (oracle : Oracle) (s : ClientState) (amount : Int) (lock_period : Int) :
    Except Err String × List ExtCall × ClientState :=
  if !is_connected s then
    (.error (.enterL2Error "Client not connected"), [], s)
  else
    (oracle (.stakingStake amount lock_period),
      [.stakingStake amount lock_period], s)

/-- Method `unstake(amount)`: guarded delegation to the staking service. -/
def unstake (oracle : Oracle) (s : ClientState) (amount : Int) :
    Except Err String × List ExtCall × ClientState :=
  if !is_connected s then
    (.error (.enterL2Error "Client not connected"), [], s)
  else
    (oracle (.stakingUnstake amount), [.stakingUnstake amount], s)

/-- Method `claim_rewards()`: guarded delegation to the staking service. -/
def claim_rewards (oracle : Oracle) (s : ClientState) :
    Except Err String × List ExtCall × ClientState :=
  if !is_connected s then
    (.error (.enterL2Error "Client not connected"), [], s)
  else
    (oracle .stakingClaimRewards, [.stakingClaimRewards], s)

/-- Method `on(event, callback)`: create the list for `event` if absent,
then append `callback`. -/
def onEvent (s : ClientState) (event : String) (callback : Cb) : ClientState :=
  let d := s.eventCallbacks
  let d := if (dictFind d event).isSome then d else dictSet d event []
  { s with eventCallbacks :=
      dictSet d event ((dictFind d event).getD [] ++ [callback]) }

/-- Method `off(event, callback)`: if `event` has a list, remove the first
occurrence of `callback` from it; the `ValueError` for an absent callback is
swallowed. -/
def offEvent (s : ClientState) (event : String) (callback : Cb) : ClientState :=
  match dictFind s.eventCallbacks event with
  | none => s
  | some cbs =>
      { s with eventCallbacks :=
          dictSet s.eventCallbacks event (removeFirst callback cbs) }

/-- The callbacks currently registered for `event`, in registration
order. -/
def registered (s : ClientState) (event : String) : List Cb :=
  (dictFind s.eventCallbacks event).getD []

/-- A Python `for` loop over a callback list whose body may raise: runs the
body on each element in order and returns the list of elements it was run
on; an exception escaping the body aborts the loop and propagates. -/
def pyForEach (body : Cb → Except String Unit) : List Cb → Except String (List Cb)
  | [] => .ok []
  | c :: rest =>
    match body c with
    | .ok _ =>
      match pyForEach body rest with
      | .ok t => .ok (c :: t)
      | .error e => .error e
    | .error e => .error e

/-- The body of `emit`'s loop: `try: callback(data) except Exception: print`
— the callback is invoked on the payload and any exception it raises is
caught and only reported. -/
def tryExceptCallback (beh : Cb → String → Except String Unit) (data : String)
    (c : Cb) : Except String Unit :=
  match beh c data with
  | .ok _ => .ok ()
  | .error _ => .ok ()

/-- Method `emit(event, data)`: if `event` has a list, loop over it invoking
each callback on `data` with the per-callback try/except.  `beh` is the
behaviour of the callback objects; the returned list is the trace of
callbacks actually invoked. -/
def emit (beh : Cb → String → Except String Unit) (s : ClientState)
    (event : String) (data : String) : Except String (List Cb) :=
  match dictFind s.eventCallbacks event with
  | none => .ok []
  | some cbs => pyForEach (tryExceptCallback beh data) cbs

/-- Method `close()`: awaits `provider.close()` first, then clears the event
registry; an exception from the provider propagates and the clear is never
reached. -/
def close (oracle : Oracle) (s : ClientState) :
    Except Err Unit × List ExtCall × ClientState :=
  match oracle .providerClose with
  | .ok _ => (.ok (), [.providerClose], { s with eventCallbacks := [] })
  | .error e => (.error e, [.providerClose], s)

/-- Method `__aenter__`: returns the client itself, unchanged. -/
def aenter (s : ClientState) : ClientState :=
  s

/-- Method `__aexit__(exc_type, exc_val, exc_tb)`: ignores the exception
information and awaits `close()`. -/
def aexit (oracle : Oracle) (s : ClientState) (exc_type exc_val exc_tb : Option String) :
    Except Err Unit × List ExtCall × ClientState :=
  close oracle s

/-- One registry manipulation, for reasoning about arbitrary sequences of
`on`/`off` calls. -/
inductive RegOp where
  | onOp (event : String) (callback : Cb)
  | offOp (event : String) (callback : Cb)
deriving Repr, DecidableEq

/-- Apply a sequence of `on`/`off` calls to a client state. -/
def applyOps (s : ClientState) : List RegOp → ClientState
  | [] => s
  | .onOp e c :: rest => applyOps (onEvent s e c) rest
  | .offOp e c :: rest => applyOps (offEvent s e c) rest

/-- Modelled from the spec: section 7's error taxonomy names a distinct
class `NotConnectedError` for calls attempted without an active session.
The repository's types module is not under src; the classes the package
init exports from it are `EnterL2Error`, `TransactionError` and
`NetworkError`, and the client raises `EnterL2Error` itself.  An exception
value is a `NotConnectedError` exactly when that is its class name. -/
def isNotConnectedError (e : Err) : Bool :=
  Err.className e = "NotConnectedError"

/-- Modelled from the spec: section 7's error taxonomy names a distinct
class `ConnectionError` for connect-time failures (malformed identity
material).  An exception value is a `ConnectionError` exactly when that is
its class name. -/
def isConnectionError (e : Err) : Bool :=
  Err.className e = "ConnectionError"


/-! ### Concrete fixtures for witnesses and counterexamples -/

/-- A test-network configuration value. -/
def cfg0 : EnterL2Config :=
  { rpcUrl := "https://rpc.test.enterl2", chainId := 1001 }

/-- A collaborator behaviour where every delegated call succeeds. -/
def oracle0 : Oracle :=
  fun _ => .ok "result"

/-- A collaborator behaviour where `provider.close()` raises and everything
else succeeds. -/
def oracleCloseFail : Oracle :=
  fun c =>
    match c with
    | .providerClose => .error (.networkError "rpc connection lost")
    | _ => .ok "result"

/-- A collaborator behaviour where `provider.set_account` raises and
everything else succeeds. -/
def oracleSetAccountFail : Oracle :=
  fun c =>
    match c with
    | .providerSetAccount _ => .error (.networkError "provider unavailable")
    | _ => .ok "result"

/-- A parsed identity. -/
def acct0 : LocalAccount :=
  { addr := "0xME" }

/-- A key parser that accepts every key as `acct0`. -/
def fromKeyOk : String → Except String LocalAccount :=
  fun _ => .ok acct0

/-- A key parser that rejects every key. -/
def fromKeyBad : String → Except String LocalAccount :=
  fun _ => .error "bad key"

/-- A freshly constructed (disconnected) client. -/
def sDisc : ClientState :=
  initClient cfg0

/-- A connected client. -/
def sConn : ClientState :=
  { initClient cfg0 with account := some acct0, providerAccount := some acct0 }

/-- A connected client with callbacks `1`, `2` registered on event "tx". -/
def sTx : ClientState :=
  { sConn with eventCallbacks := [("tx", [1, 2])] }

/-- A callback behaviour where callback `1` raises and all others return
normally. -/
def behBoom : Cb → String → Except String Unit :=
  fun c _ => if c = 1 then .error "boom" else .ok ()

/-! ### Helper lemmas -/

/-- The try/except wrapped loop body never lets an exception escape, so the
loop runs over the whole list. -/
theorem pyForEach_tryExcept (beh : Cb → String → Except String Unit) (data : String) :
    ∀ cbs : List Cb, pyForEach (tryExceptCallback beh data) cbs = .ok cbs := by
  intro cbs
  induction cbs with
  | nil => rfl
  | cons c rest ih =>
      cases h : beh c data with
      | ok u => simp [pyForEach, tryExceptCallback, h, ih]
      | error e => simp [pyForEach, tryExceptCallback, h, ih]

/-- Evaluation of `emit`: it returns normally, having invoked exactly the
registered callbacks in order, whatever the callbacks do. -/
theorem emit_eq (beh : Cb → String → Except String Unit) (s : ClientState)
    (event data : String) :
    emit beh s event data = .ok (registered s event) := by
  unfold emit registered
  cases h : dictFind s.eventCallbacks event with
  | none => simp
  | some cbs => simp [pyForEach_tryExcept]

/-- Lookup after assignment on the association-list dict. -/
theorem dictFind_dictSet (d : List (String × List Cb)) (k k' : String) (v : List Cb) :
    dictFind (dictSet d k v) k' = if k = k' then some v else dictFind d k' := by
  induction d with
  | nil => by_cases h : k = k' <;> simp [dictSet, dictFind, h]
  | cons kv rest ih =>
      obtain ⟨k0, v0⟩ := kv
      by_cases h0 : k0 = k
      · subst h0
        by_cases h1 : k0 = k' <;> simp [dictSet, dictFind, h1]
      · by_cases h1 : k0 = k'
        · subst h1
          have h2 : ¬ k = k0 := fun hk => h0 hk.symm
          simp [dictSet, dictFind, h0, h2]
        · by_cases h2 : k = k'
          · subst h2
            simp [dictSet, dictFind, h0, h1, ih]
          · simp [dictSet, dictFind, h0, h1, h2, ih]

/-- Assigning a key the value it already has leaves the dict unchanged. -/
theorem dictSet_cancel (d : List (String × List Cb)) (k : String) (v : List Cb)
    (h : dictFind d k = some v) : dictSet d k v = d := by
  induction d with
  | nil => simp [dictFind] at h
  | cons kv rest ih =>
      obtain ⟨k0, v0⟩ := kv
      by_cases h0 : k0 = k
      · simp [dictFind, h0] at h
        simp [dictSet, h0, h]
      · simp [dictFind, h0] at h
        simp [dictSet, h0, ih h]

/-- Effect of `on` on the registered list of every event. -/
theorem registered_onEvent (s : ClientState) (e : String) (c : Cb) (e' : String) :
    registered (onEvent s e c) e'
      = if e = e' then registered s e' ++ [c] else registered s e' := by
  unfold onEvent registered
  cases h : dictFind s.eventCallbacks e with
  | none =>
      by_cases h1 : e = e'
      · subst h1
        simp [dictFind_dictSet, h]
      · simp [dictFind_dictSet, h, h1]
  | some cbs =>
      by_cases h1 : e = e'
      · subst h1
        simp [dictFind_dictSet, h]
      · simp [dictFind_dictSet, h, h1]

/-- Effect of `off` on the registered list of every event. -/
theorem registered_offEvent (s : ClientState) (e : String) (c : Cb) (e' : String) :
    registered (offEvent s e c) e'
      = if e = e' then removeFirst c (registered s e') else registered s e' := by
  unfold offEvent registered
  cases h : dictFind s.eventCallbacks e with
  | none =>
      by_cases h1 : e = e'
      · subst h1
        simp [h, removeFirst]
      · simp [h, h1]
  | some cbs =>
      by_cases h1 : e = e'
      · subst h1
        simp [dictFind_dictSet, h]
      · simp [dictFind_dictSet, h, h1]

/-- Removing an absent callback leaves the list unchanged. -/
theorem removeFirst_not_mem (c : Cb) (l : List Cb) (h : c ∉ l) :
    removeFirst c l = l := by
  induction l with
  | nil => rfl
  | cons c' rest ih =>
      simp only [List.mem_cons, not_or] at h
      have hne : ¬ c' = c := fun hc => h.1 hc.symm
      simp [removeFirst, hne, ih h.2]

/-! ### Claims -/

/-- C1 counterexample: on a disconnected client, `send_payment` does fail
before any collaborator call, but the exception it fails with is of class
`EnterL2Error` (message "Client not connected"), not of a distinct class
`NotConnectedError`: the client never raises such a class. -/
theorem C1_counterexample_error_class :
    send_payment oracle0 sDisc "0xBEEF" 10 none none
      = (.error (.enterL2Error "Client not connected"), [], sDisc) ∧
    isNotConnectedError (Err.enterL2Error "Client not connected") = false := by
  exact ⟨rfl, rfl⟩

/-- C1 (amended): every mutating operation (send_payment, deposit, withdraw,
register_name, stake, unstake, claim_rewards, create_consumer_wallet,
create_merchant_wallet) invoked while no session is active fails with the
typed SDK error `EnterL2Error` carrying the message "Client not connected"
(the code defines no separate `NotConnectedError` class) and performs zero
provider or service calls, leaving the client state unchanged: the error is
raised before any other work. -/
theorem C1_guard_blocks_when_disconnected (oracle : Oracle) (s : ClientState)
    (h : is_connected s = false) (to' tok name : String) (amount : Int)
    (token_address description recip resolver : Option String)
    (lock_period : Int) (whitelist_enabled : Bool) (daily_limit : Option Int) :
    send_payment oracle s to' amount token_address description
        = (.error (.enterL2Error "Client not connected"), [], s) ∧
    deposit oracle s tok amount recip
        = (.error (.enterL2Error "Client not connected"), [], s) ∧
    withdraw oracle s tok amount recip
        = (.error (.enterL2Error "Client not connected"), [], s) ∧
    register_name oracle s name resolver
        = (.error (.enterL2Error "Client not connected"), [], s) ∧
    stake oracle s amount lock_period
        = (.error (.enterL2Error "Client not connected"), [], s) ∧
    unstake oracle s amount
        = (.error (.enterL2Error "Client not connected"), [], s) ∧
    claim_rewards oracle s
        = (.error (.enterL2Error "Client not connected"), [], s) ∧
    create_consumer_wallet oracle s
        = (.error (.enterL2Error "Client not connected"), [], s) ∧
    create_merchant_wallet oracle s whitelist_enabled daily_limit
        = (.error (.enterL2Error "Client not connected"), [], s) := by
  refine ⟨?_, ?_, ?_, ?_, ?_, ?_, ?_, ?_, ?_⟩ <;>
    simp [send_payment, deposit, withdraw, register_name, stake, unstake,
      claim_rewards, create_consumer_wallet, create_merchant_wallet, h]

/-- C1 witness: the guard theorem instantiated on a freshly constructed
client, here for `claim_rewards`. -/
theorem C1_guard_witness :
    claim_rewards oracle0 sDisc
      = (.error (.enterL2Error "Client not connected"), [], sDisc) :=
  (C1_guard_blocks_when_disconnected oracle0 sDisc rfl "0xBEEF" "0xTOK" "alice"
      10 none none none none 0 false none).2.2.2.2.2.2.1

/-- C2: for every sequence of on/off calls followed by an emit, emit invokes
exactly the callbacks currently registered for the event, in registration
order; on appends one entry (so a callback registered twice has two
independent entries), off removes only the first matching occurrence and is
a no-op when the event or the callback is not found, and emit on an event
with no registered callbacks is a no-op. -/
theorem C2_event_registry (s : ClientState) :
    (∀ (ops : List RegOp) (e data : String) (beh : Cb → String → Except String Unit),
        emit beh (applyOps s ops) e data = .ok (registered (applyOps s ops) e)) ∧
    (∀ (e : String) (c : Cb) (e' : String),
        registered (onEvent s e c) e'
          = if e = e' then registered s e' ++ [c] else registered s e') ∧
    (∀ (e : String) (c : Cb) (e' : String),
        registered (offEvent s e c) e'
          = if e = e' then removeFirst c (registered s e') else registered s e') ∧
    (∀ (e : String) (c : Cb),
        dictFind s.eventCallbacks e = none → offEvent s e c = s) ∧
    (∀ (e : String) (c : Cb) (cbs : List Cb),
        dictFind s.eventCallbacks e = some cbs → c ∉ cbs → offEvent s e c = s) ∧
    (∀ (e data : String) (beh : Cb → String → Except String Unit),
        registered s e = [] → emit beh s e data = .ok []) := by
  refine ⟨?_, ?_, ?_, ?_, ?_, ?_⟩
  · intro ops e data beh
    exact emit_eq beh (applyOps s ops) e data
  · intro e c e'
    exact registered_onEvent s e c e'
  · intro e c e'
    exact registered_offEvent s e c e'
  · intro e c h
    simp [offEvent, h]
  · intro e c cbs h hc
    simp [offEvent, h, removeFirst_not_mem c cbs hc, dictSet_cancel _ _ _ h]
  · intro e data beh h
    have he := emit_eq beh s e data
    rw [he, h]

/-- C2 witness: a concrete on/on/on/off sequence followed by emit (the first
occurrence of callback 1 is removed, callbacks 2 then 1 are invoked), plus
the no-op cases of off and emit, all instantiated from the theorem. -/
theorem C2_event_registry_witness :
    emit behBoom
        (applyOps sDisc [.onOp "tx" 1, .onOp "tx" 2, .onOp "tx" 1, .offOp "tx" 1])
        "tx" "payload" = .ok [2, 1] ∧
    offEvent sDisc "tx" 5 = sDisc ∧
    offEvent sTx "tx" 5 = sTx ∧
    emit behBoom sDisc "tx" "payload" = .ok [] := by
  have h := C2_event_registry sDisc
  have htx := C2_event_registry sTx
  refine ⟨?_, ?_, ?_, ?_⟩
  · have h1 := h.1 [.onOp "tx" 1, .onOp "tx" 2, .onOp "tx" 1, .offOp "tx" 1]
        "tx" "payload" behBoom
    rw [h1]
    rfl
  · exact h.2.2.2.1 "tx" 5 rfl
  · exact htx.2.2.2.2.1 "tx" 5 [1, 2] rfl (by decide)
  · exact h.2.2.2.2.2 "tx" "payload" behBoom rfl

/-- C3: if a registered callback raises during emit, all subsequent
callbacks in the same emit call are still invoked in order (the invocation
trace is the full registered list) and no exception propagates out of emit
to its caller. -/
theorem C3_callback_isolation (beh : Cb → String → Except String Unit)
    (s : ClientState) (e data : String) (c : Cb)
    (hc : c ∈ registered s e) (hraise : ∃ msg, beh c data = .error msg) :
    emit beh s e data = .ok (registered s e) ∧
    ∀ msg, emit beh s e data ≠ .error msg := by
  have h := emit_eq beh s e data
  refine ⟨h, ?_⟩
  intro msg hmsg
  rw [h] at hmsg
  exact Except.noConfusion hmsg

/-- C3 witness: callback 1 raises "boom" on the payload, yet emit invokes
both registered callbacks (1 then 2) and returns normally. -/
theorem C3_callback_isolation_witness :
    emit behBoom sTx "tx" "payload" = .ok [1, 2] ∧
    ∀ msg, emit behBoom sTx "tx" "payload" ≠ .error msg := by
  have h := C3_callback_isolation behBoom sTx "tx" "payload" 1
      (by decide) ⟨"boom", rfl⟩
  exact ⟨by rw [h.1]; rfl, h.2⟩

/-- C4 counterexample: when the key parses but `provider.set_account`
raises, connect raises and leaves the session partially set — the account is
bound to the client (is_connected has become true) but not to the provider,
and the state differs from the one before the call — refuting "never leaves
a partially-set session"; moreover the error raised is of class
`EnterL2Error`, not of a distinct class `ConnectionError`. -/
theorem C4_counterexample_partial_session :
    connect fromKeyOk oracleSetAccountFail sDisc "0xKEY"
      = (.error (.enterL2Error "Failed to connect: provider unavailable"),
         [.providerSetAccount (some acct0)],
         { sDisc with account := some acct0 }) ∧
    is_connected { sDisc with account := some acct0 } = true ∧
    ({ sDisc with account := some acct0 } : ClientState).providerAccount = none ∧
    ({ sDisc with account := some acct0 } : ClientState) ≠ sDisc ∧
    isConnectionError (Err.enterL2Error "Failed to connect: provider unavailable")
      = false := by
  refine ⟨rfl, rfl, rfl, ?_, rfl⟩
  decide

/-- C4 (amended): connect with malformed key material raises the SDK error
`EnterL2Error` whose message wraps the underlying parse failure ("Failed to
connect: " followed by it; the code defines no separate `ConnectionError`
class), performs no provider call and leaves the session exactly as it was
(in particular is_connected stays false if it was false).  When the key
parses, the account is bound to the client and handed to the provider: if
`set_account` succeeds the client is fully connected; if `set_account`
raises, connect raises `EnterL2Error` wrapping that failure and leaves the
session partially set — the account is bound to the client but not to the
provider. -/
theorem C4_connect_behaviour (fromKey : String → Except String LocalAccount)
    (oracle : Oracle) (s : ClientState) (private_key : String) :
    (∀ m, fromKey private_key = .error m →
        connect fromKey oracle s private_key
          = (.error (.enterL2Error ("Failed to connect: " ++ m)), [], s)) ∧
    (∀ a r, fromKey private_key = .ok a →
        oracle (.providerSetAccount (some a)) = .ok r →
        connect fromKey oracle s private_key
          = (.ok (), [.providerSetAccount (some a)],
              { s with account := some a, providerAccount := some a })) ∧
    (∀ a e, fromKey private_key = .ok a →
        oracle (.providerSetAccount (some a)) = .error e →
        connect fromKey oracle s private_key
          = (.error (.enterL2Error ("Failed to connect: " ++ e.msg)),
             [.providerSetAccount (some a)],
             { s with account := some a })) := by
  refine ⟨?_, ?_, ?_⟩
  · intro m hm
    simp [connect, hm]
  · intro a r ha hr
    simp [connect, ha, hr]
  · intro a e ha he
    simp [connect, ha, he]

/-- C4 witness: a rejecting parser leaves the fresh client untouched; an
accepting parser with a working provider fully binds the account; an
accepting parser with a raising `set_account` leaves the client-side binding
only. -/
theorem C4_connect_behaviour_witness :
    connect fromKeyBad oracle0 sDisc "zzz"
      = (.error (.enterL2Error "Failed to connect: bad key"), [], sDisc) ∧
    connect fromKeyOk oracle0 sDisc "0xKEY"
      = (.ok (), [.providerSetAccount (some acct0)],
          { sDisc with account := some acct0, providerAccount := some acct0 }) ∧
    connect fromKeyOk oracleSetAccountFail sDisc "0xKEY"
      = (.error (.enterL2Error "Failed to connect: provider unavailable"),
         [.providerSetAccount (some acct0)],
         { sDisc with account := some acct0 }) :=
  ⟨(C4_connect_behaviour fromKeyBad oracle0 sDisc "zzz").1 "bad key" rfl,
   (C4_connect_behaviour fromKeyOk oracle0 sDisc "0xKEY").2.1 acct0 "result"
      rfl rfl,
   (C4_connect_behaviour fromKeyOk oracleSetAccountFail sDisc "0xKEY").2.2 acct0
      (.networkError "provider unavailable") rfl rfl⟩

/-- C5: disconnect clears the session unconditionally and is idempotent: for
every client state the state after two disconnects equals the state after
one, and after any disconnect the address accessor returns none and
is_connected returns false. -/
theorem C5_disconnect_idempotent (s : ClientState) :
    (disconnect (disconnect s).2).2 = (disconnect s).2 ∧
    (disconnect s).2.account = none ∧
    (disconnect s).2.providerAccount = none ∧
    address (disconnect s).2 = none ∧
    is_connected (disconnect s).2 = false := by
  simp [disconnect, address, is_connected]

/-- C6: for a connected client, send_payment makes exactly one delegated
call to the payment facade, with the request value built from its arguments
and the defaults token_address = None and description = None, and returns
the facade result unchanged. -/
theorem C6_send_payment_delegates_once (oracle : Oracle) (s : ClientState)
    (h : is_connected s = true) (to' : String) (amount : Int) :
    send_payment oracle s to' amount none none
      = (oracle (.paymentSendPayment
            { to' := to', amount := amount, token_address := none,
              description := none }),
         [.paymentSendPayment
            { to' := to', amount := amount, token_address := none,
              description := none }], s) := by
  simp [send_payment, h]

/-- C6 witness: the scenario of the claim — to = "0xBEEF...", amount = 10 on
a connected test-network client delegates the request exactly once and hands
back the facade result. -/
theorem C6_send_payment_witness :
    send_payment oracle0 sConn "0xBEEF..." 10 none none
      = (.ok "result",
         [.paymentSendPayment
            { to' := "0xBEEF...", amount := 10, token_address := none,
              description := none }], sConn) := by
  have h := C6_send_payment_delegates_once oracle0 sConn rfl "0xBEEF..." 10
  rw [h]
  rfl

/-- C7: for a connected client, deposit and withdraw with a missing (None)
recipient substitute the current session address as the recipient before
delegating to the bridge facade, delegate exactly once, and return the
facade result unchanged. -/
theorem C7_default_recipient_is_session_address (oracle : Oracle)
    (s : ClientState) (h : is_connected s = true) (tok : String) (amount : Int) :
    deposit oracle s tok amount none
      = (oracle (.bridgeDeposit tok amount (address s)),
         [.bridgeDeposit tok amount (address s)], s) ∧
    withdraw oracle s tok amount none
      = (oracle (.bridgeWithdraw tok amount (address s)),
         [.bridgeWithdraw tok amount (address s)], s) := by
  constructor <;> simp [deposit, withdraw, pyOrOpt, h]

/-- C7 witness: on a connected client with address "0xME", deposit and
withdraw with recipient None delegate once with recipient "0xME". -/
theorem C7_default_recipient_witness :
    deposit oracle0 sConn "0xTOK" 5 none
      = (.ok "result", [.bridgeDeposit "0xTOK" 5 (some "0xME")], sConn) ∧
    withdraw oracle0 sConn "0xTOK" 5 none
      = (.ok "result", [.bridgeWithdraw "0xTOK" 5 (some "0xME")], sConn) := by
  have h := C7_default_recipient_is_session_address oracle0 sConn rfl "0xTOK" 5
  exact ⟨by rw [h.1]; rfl, by rw [h.2]; rfl⟩

/-- C8 counterexample: when the provider close step raises, close propagates
the error and the event registry is NOT cleared (the clear is coded after
the provider call with no finally), so cleanup is not guaranteed when an
internal teardown step fails. -/
theorem C8_counterexample_cleanup_not_guaranteed :
    close oracleCloseFail sTx
      = (.error (.networkError "rpc connection lost"), [.providerClose], sTx) ∧
    sTx.eventCallbacks = [("tx", [1, 2])] := by
  exact ⟨rfl, rfl⟩

/-- C8 (amended): close awaits the provider close first and clears the event
registry second; when the provider close succeeds the registry is cleared
and the provider resource released, but when it fails the error propagates
and the registry is left unchanged — cleanup is guaranteed only on a
successful provider close.  The scoped-resource entry returns the client
itself and the scoped-resource exit always calls close, on every exit path
including error paths. -/
theorem C8_close_and_scoped_exit (oracle : Oracle) (s : ClientState)
    (exc_type exc_val exc_tb : Option String) :
    (∀ r, oracle .providerClose = .ok r →
        close oracle s = (.ok (), [.providerClose],
          { s with eventCallbacks := [] })) ∧
    (∀ e, oracle .providerClose = .error e →
        close oracle s = (.error e, [.providerClose], s)) ∧
    aenter s = s ∧
    aexit oracle s exc_type exc_val exc_tb = close oracle s := by
  refine ⟨?_, ?_, rfl, rfl⟩ <;> intro x hx <;> simp [close, hx]

/-- C8 witness: both close branches at concrete oracles, and the scoped exit
on an error path. -/
theorem C8_close_witness :
    close oracle0 sTx
      = (.ok (), [.providerClose], { sTx with eventCallbacks := [] }) ∧
    close oracleCloseFail sTx
      = (.error (.networkError "rpc connection lost"), [.providerClose], sTx) ∧
    aexit oracleCloseFail sTx (some "ValueError") none none
      = close oracleCloseFail sTx :=
  ⟨(C8_close_and_scoped_exit oracle0 sTx none none none).1 "result" rfl,
   (C8_close_and_scoped_exit oracleCloseFail sTx none none none).2.1
      (.networkError "rpc connection lost") rfl,
   (C8_close_and_scoped_exit oracleCloseFail sTx (some "ValueError") none
      none).2.2.2⟩

/-- C9: for a connected client, deposit and withdraw replace every falsy
recipient value — in particular the empty string — by the current session
address before delegating to the bridge facade. -/
theorem C9_empty_string_recipient_replaced (oracle : Oracle) (s : ClientState)
    (h : is_connected s = true) (tok : String) (amount : Int) :
    deposit oracle s tok amount (some "")
      = (oracle (.bridgeDeposit tok amount (address s)),
         [.bridgeDeposit tok amount (address s)], s) ∧
    withdraw oracle s tok amount (some "")
      = (oracle (.bridgeWithdraw tok amount (address s)),
         [.bridgeWithdraw tok amount (address s)], s) := by
  constructor <;> simp [deposit, withdraw, pyOrOpt, h]

/-- C9 witness: an empty-string recipient on a connected client with address
"0xME" is replaced by "0xME" in the single delegated call. -/
theorem C9_empty_string_witness :
    deposit oracle0 sConn "0xTOK" 5 (some "")
      = (.ok "result", [.bridgeDeposit "0xTOK" 5 (some "0xME")], sConn) ∧
    withdraw oracle0 sConn "0xTOK" 5 (some "")
      = (.ok "result", [.bridgeWithdraw "0xTOK" 5 (some "0xME")], sConn) := by
  have h := C9_empty_string_recipient_replaced oracle0 sConn rfl "0xTOK" 5
  exact ⟨by rw [h.1]; rfl, by rw [h.2]; rfl⟩

/-- C10: the query operations get_network_info, get_transaction and
wait_for_transaction perform no session-guard check — on a disconnected
client they still delegate to the provider — while get_balance requires an
active session and raises the not-connected error with no provider call. -/
theorem C10_queries_unguarded (oracle : Oracle) (s : ClientState)
    (h : is_connected s = false) (tx_hash : String)
    (confirmations timeout : Int) (token_address : Option String) :
    get_network_info oracle s
      = (oracle .providerGetNetworkInfo, [.providerGetNetworkInfo], s) ∧
    get_transaction oracle s tx_hash
      = (oracle (.providerGetTransaction tx_hash),
         [.providerGetTransaction tx_hash], s) ∧
    wait_for_transaction oracle s tx_hash confirmations timeout
      = (oracle (.providerWaitForTransaction tx_hash confirmations timeout),
         [.providerWaitForTransaction tx_hash confirmations timeout], s) ∧
    get_balance oracle s token_address
      = (.error (.enterL2Error "Client not connected"), [], s) := by
  refine ⟨rfl, rfl, rfl, ?_⟩
  simp [get_balance, h]

/-- C10 witness: on a freshly constructed (disconnected) client the three
unguarded queries delegate and get_balance raises. -/
theorem C10_queries_witness :
    get_transaction oracle0 sDisc "0xHASH"
      = (.ok "result", [.providerGetTransaction "0xHASH"], sDisc) ∧
    get_balance oracle0 sDisc none
      = (.error (.enterL2Error "Client not connected"), [], sDisc) := by
  have h := C10_queries_unguarded oracle0 sDisc rfl "0xHASH" 1 60 none
  exact ⟨by rw [h.2.1]; rfl, h.2.2.2⟩

end EnterL2
